import Mathlib

/-!
Shallow embedding of the WhatsForm order-management backend (src/api/index.js).

Tables ("sheets") are lists of rows; a row is a list of string cells, exactly
as returned by the spreadsheet values API.  A JavaScript `row[i]` access that
may fall off the end is `Option String` (with `none` playing `undefined`).
JavaScript numbers produced by `parseFloat` / `parseInt` are modelled as
`Option ℚ` / `Option ℤ`, with `none` playing `NaN`; arithmetic propagates
`none` the way JS arithmetic propagates `NaN`.  Handlers are pure functions
from the request parameters and the table state they read to a response,
together with the list of sheet writes they issue.
-/

namespace WhatsForm

/-- `row[i]` in JavaScript: `none` models `undefined` past the end. -/
def getCell (row : List String) (i : Nat) : Option String :=
  row.get? i

/-- Digit value of a decimal digit character. -/
def digitVal? (c : Char) : Option Nat :=
  if c.isDigit then some (c.toNat - 48) else none

/-- Longest run of decimal digits at the front of a character list,
    together with the rest. -/
def takeDigits : List Char → List Nat × List Char
  | [] => ([], [])
  | c :: cs =>
    match digitVal? c with
    | some d => let p := takeDigits cs; (d :: p.1, p.2)
    | none => ([], c :: cs)

/-- The natural number denoted by a digit run. -/
def natOfDigits (ds : List Nat) : Nat :=
  ds.foldl (fun a d => a * 10 + d) 0

/-- The fractional value denoted by a digit run placed after a decimal point. -/
def fracOfDigits (ds : List Nat) : ℚ :=
  ds.foldr (fun d acc => ((d : ℚ) + acc) / 10) 0

/-- JavaScript `parseFloat` on a cell, for the plain decimal strings the
    sheets hold: optional sign, digits, optional point and digits, trailing
    text ignored.  `none` models `NaN` (including `parseFloat(undefined)`). -/
def jsParseFloat : Option String → Option ℚ
  | none => none
  | some s =>
    let p0 : ℚ × List Char :=
      match s.data with
      | '-' :: cs => (-1, cs)
      | '+' :: cs => (1, cs)
      | cs => (1, cs)
    let ip := takeDigits p0.2
    let fp : List Nat :=
      match ip.2 with
      | '.' :: cs => (takeDigits cs).1
      | _ => []
    if ip.1 = [] ∧ fp = [] then none
    else some (p0.1 * ((natOfDigits ip.1 : ℚ) + fracOfDigits fp))

/-- JavaScript `parseInt` (radix 10) on a cell: optional sign then a digit
    run, trailing text ignored; `none` models `NaN`. -/
def jsParseInt : Option String → Option ℤ
  | none => none
  | some s =>
    let p0 : ℤ × List Char :=
      match s.data with
      | '-' :: cs => (-1, cs)
      | '+' :: cs => (1, cs)
      | cs => (1, cs)
    let ds := (takeDigits p0.2).1
    if ds = [] then none else some (p0.1 * natOfDigits ds)

/-- JavaScript `x || d` on a string-or-undefined `x`: the empty string and
    `undefined` are falsy. -/
def jsOrDefault (x : Option String) (d : String) : String :=
  match x with
  | some s => if s = "" then d else s
  | none => d

/-- JS `a * b` on possibly-NaN numbers. -/
def jnumMul (a b : Option ℚ) : Option ℚ :=
  match a, b with
  | some x, some y => some (x * y)
  | _, _ => none

/-- JS `a + b` on possibly-NaN numbers. -/
def jnumAdd (a b : Option ℚ) : Option ℚ :=
  match a, b with
  | some x, some y => some (x + y)
  | _, _ => none

/-- Coercion of a possibly-NaN integer into a possibly-NaN number. -/
def jnumOfInt (a : Option ℤ) : Option ℚ :=
  a.map (fun z => (z : ℚ))

/-- JavaScript `row[i] = v`: replaces cell `i`, extending a shorter row with
    empty cells (the holes JS creates serialize as empty sheet cells). -/
def setIdx : List String → Nat → String → List String
  | [], 0, v => [v]
  | [], n + 1, v => "" :: setIdx [] n v
  | _ :: xs, 0, v => v :: xs
  | x :: xs, n + 1, v => x :: setIdx xs n v

/-- HTTP response envelope: `ok` is `{success: true, ...}`, the error
    constructors are the 400 / 401 / 404 / 500 `{success: false}` replies. -/
inductive Resp (α : Type) where
  | ok (data : α)
  | badRequest
  | unauthorized
  | notFound
  | serverError
deriving DecidableEq, Repr

/-! ### GET /api/products and GET /api/product/:productId -/

/-- Record shape of one entry of the `GET /api/products` list. -/
structure ProductSummary where
  id : Option String
  name : Option String
  description : Option String
  price : Option ℚ
deriving DecidableEq, Repr

/-- The per-row mapping of the `GET /api/products` handler:
    `{id: row[0], name: row[1], description: row[2], price: parseFloat(row[12])}`. -/
def productSummaryOfRow (row : List String) : ProductSummary :=
  { id := getCell row 0
    name := getCell row 1
    description := getCell row 2
    price := jsParseFloat (getCell row 12) }

/-- `GET /api/products` (after the auth gate): decode every data row. -/
def getProducts (rows : List (List String)) : Resp (List ProductSummary) :=
  .ok (rows.map productSummaryOfRow)

/-- Record shape of the `GET /api/product/:productId` response. -/
structure ProductDetail where
  id : Option String
  name : Option String
  description : Option String
  price : Option ℚ
  SKU : Option String
  weight : Option String
  length : Option String
  breadth : Option String
  height : Option String
  colors : Option String
deriving DecidableEq, Repr

/-- The positional decoding used by `GET /api/product/:productId` (and by the
    products map of `GET /api/order-link/:linkId`). -/
def productDetailOfRow (row : List String) : ProductDetail :=
  { id := getCell row 0
    name := getCell row 1
    description := getCell row 2
    price := jsParseFloat (getCell row 12)
    SKU := getCell row 31
    weight := getCell row 22
    length := getCell row 33
    breadth := getCell row 34
    height := getCell row 32
    colors := getCell row 30 }

/-- `GET /api/product/:productId`: linear scan by `row[0] === productId`. -/
def getProduct (rows : List (List String)) (productId : String) : Resp ProductDetail :=
  match rows.find? (fun row => getCell row 0 == some productId) with
  | none => .notFound
  | some row => .ok (productDetailOfRow row)

/-! ### GET /api/order-link/:linkId -/

/-- One entry of the joined `products` list of the order-link response:
    the spread product record plus `quantity: parseInt(quantity)`. -/
structure JoinedProduct where
  detail : ProductDetail
  quantity : Option ℤ
deriving DecidableEq, Repr

/-- Lookup in the JS `Map` built from the product rows keyed by `row[0]`
    (later duplicate keys overwrite earlier ones, hence the reversed scan). -/
def mapLookup (productRows : List (List String)) (k : Option String) :
    Option ProductDetail :=
  match productRows.reverse.find? (fun row => getCell row 0 == k) with
  | some row => some (productDetailOfRow row)
  | none => none

/-- The join of the matched link rows against the products map; `none` models
    the `Product not found` throw (caught and turned into a 500). -/
def joinLines (productRows : List (List String)) :
    List (List String) → Option (List JoinedProduct)
  | [] => some []
  | link :: rest =>
    match mapLookup productRows (getCell link 1) with
    | none => none
    | some d =>
      match joinLines productRows rest with
      | none => none
      | some js => some ({ detail := d, quantity := jsParseInt (getCell link 2) } :: js)

/-- `totalAmount`: `reduce((sum, item) => sum + item.price * item.quantity, 0)`. -/
def totalOf (items : List JoinedProduct) : Option ℚ :=
  items.foldl (fun sum it => jnumAdd sum (jnumMul it.detail.price (jnumOfInt it.quantity))) (some 0)

/-- Value of the `paymentStatus` ternary: a JS expression whose then-branch is
    a string and whose else-branch, `orderLinks[4] | "pending"`, is the bitwise
    OR of two non-numbers, i.e. the number `0`. -/
inductive PaymentValue where
  | str (s : String)
  | num (n : ℤ)
deriving DecidableEq, Repr

/-- `orderLinks.length > 0 ? (orderLinks[0][4] || "pending") : (orderLinks[4] | "pending")`. -/
def paymentStatusOf (orderLinks : List (List String)) : PaymentValue :=
  if 0 < orderLinks.length then
    .str (jsOrDefault (getCell (orderLinks.headD []) 4) "pending")
  else
    .num 0

/-- Payload of a successful order-link response. -/
structure OrderLinkData where
  linkId : String
  paymentStatus : PaymentValue
  products : List JoinedProduct
  totalAmount : Option ℚ
deriving DecidableEq, Repr

/-- `GET /api/order-link/:linkId`: filter the OrderLinks rows by
    `row[0] === linkId`, compute the paymentStatus ternary, 404 on no match,
    join against Products (500 on a missing product), total up. -/
def getOrderLink (linkRows productRows : List (List String)) (linkId : String) :
    Resp OrderLinkData :=
  let orderLinks := linkRows.filter (fun row => getCell row 0 == some linkId)
  let paymentStatus := paymentStatusOf orderLinks
  if orderLinks.length = 0 then .notFound
  else
    match joinLines productRows orderLinks with
    | none => .serverError
    | some items =>
      .ok { linkId := linkId, paymentStatus := paymentStatus,
            products := items, totalAmount := totalOf items }

/-! ### POST /api/generate-link -/

/-- One `{productId, quantity}` element of the request's `products` array. -/
structure LinkItem where
  productId : String
  quantity : String
deriving DecidableEq, Repr

/-- The request body's `products` field: absent (or otherwise falsy), present
    but not an array, or an array of items. -/
inductive BodyProducts where
  | absent
  | notAnArray
  | arr (items : List LinkItem)
deriving DecidableEq, Repr

/-- A write issued against the order-links spreadsheet. -/
inductive SheetWrite where
  | createSheet (title : String)
  | append (sheet : String) (rows : List (List String))
  | clear (sheet : String)
  | update (sheet : String) (rows : List (List String))
deriving DecidableEq, Repr

/-- Effect of a write log on the OrderLinks table state. -/
def applyWrites (table : List (List String)) : List SheetWrite → List (List String)
  | [] => table
  | .append _ rows :: ws => applyWrites (table ++ rows) ws
  | .clear _ :: ws => applyWrites [] ws
  | .update _ rows :: ws => applyWrites rows ws
  | .createSheet _ :: ws => applyWrites table ws

/-- The rows appended by generate-link:
    `products.map(({productId, quantity}) => [linkId, productId, quantity, timestamp])`. -/
def linkRowsOf (items : List LinkItem) (linkId timestamp : String) :
    List (List String) :=
  items.map (fun it => [linkId, it.productId, it.quantity, timestamp])

/-- `POST /api/generate-link`.  The random `linkId`, the ISO `timestamp` and
    the result of the OrderLinks-sheet existence check are parameters. -/
def generateLink (body : BodyProducts) (linkId timestamp : String)
    (sheetExists : Bool) : Resp String × List SheetWrite :=
  match body with
  | .absent => (.badRequest, [])
  | .notAnArray => (.badRequest, [])
  | .arr items =>
    if items.length = 0 then (.badRequest, [])
    else
      let setup : List SheetWrite :=
        if sheetExists then []
        else
          [.createSheet "OrderLinks",
           .append "OrderLinks" [["Link ID", "Product ID", "Quantity", "Timestamp"]]]
      (.ok linkId, setup ++ [.append "OrderLinks" (linkRowsOf items linkId timestamp)])

/-! ### PUT /api/update-payment-status -/

/-- The per-row rewrite: `if (row[0] === linkId) row[4] = paymentStatus`. -/
def updateRow (linkId paymentStatus : String) (row : List String) : List String :=
  if getCell row 0 == some linkId then setIdx row 4 paymentStatus else row

/-- `PUT /api/update-payment-status`: 400 when either field is falsy
    (absent or empty), otherwise map the rewrite over the whole table,
    clear the range, and write the full table back. -/
def updatePaymentStatus (linkId paymentStatus : Option String)
    (rows : List (List String)) : Resp Unit × List SheetWrite :=
  match linkId, paymentStatus with
  | some l, some p =>
    if l = "" ∨ p = "" then (.badRequest, [])
    else
      (.ok (), [.clear "OrderLinks", .update "OrderLinks" (rows.map (updateRow l p))])
  | _, _ => (.badRequest, [])

/-! ### POST /api/saveToSheet -/

/-- One element of the `products` array of a saveToSheet body; each field is
    forwarded verbatim into the appended row (cells model JSON scalars as
    strings, `none` playing an absent field / `undefined`). -/
structure SaveProduct where
  name : Option String := none
  price : Option String := none
  quantity : Option String := none
  SKU : Option String := none
  weight : Option String := none
  length : Option String := none
  breadth : Option String := none
  height : Option String := none
deriving DecidableEq, Repr

/-- The saveToSheet request body (the destructured fields that reach the
    appended rows or control flow; the handler also destructures
    `quantity, totalAmount, productName, unitPrice, SKU, weightOfShipment`
    etc., of which only those below are used). -/
structure SaveBody where
  phoneNumber : Option String := none
  firstName : Option String := none
  lastName : Option String := none
  totalAmount : Option String := none
  paymentId : Option String := none
  timestamp : Option String := none
  orderId : Option String := none
  shippingAddressLine1 : Option String := none
  shippingAddressLine2 : Option String := none
  shippingCity : Option String := none
  shippingState : Option String := none
  shippingPincode : Option String := none
  billingAddressLine1 : Option String := none
  billingAddressLine2 : Option String := none
  billingCity : Option String := none
  billingState : Option String := none
  billingPincode : Option String := none
  email : Option String := none
  PaymentMethod : Option String := none
  COD : Option String := none
  isThisMultipleProductOrder : Option String := none
  products : Option (List SaveProduct) := none
  customizationDetails : Option (List (String × List (List String))) := none
deriving DecidableEq, Repr

/-- The 33-cell row pushed for one product (hardcoded pickup code `"13556454"`
    and country `"India"`, empty courier-name cell). -/
def mkOrderRow (b : SaveBody) (p : SaveProduct) : List (Option String) :=
  [b.orderId, some "13556454", b.phoneNumber, b.firstName, b.lastName, b.email,
   b.shippingAddressLine1, b.shippingAddressLine2, b.shippingPincode,
   b.shippingCity, b.shippingState, some "India",
   b.billingAddressLine1, b.billingAddressLine2, b.billingPincode,
   b.billingCity, b.billingState, some "India",
   p.name, p.price, p.quantity, p.SKU, b.PaymentMethod, b.COD, b.totalAmount,
   p.weight, p.length, p.breadth, p.height, some "", b.paymentId,
   b.isThisMultipleProductOrder, b.timestamp]

/-- A write issued by saveToSheet: an append of order rows to the main Orders
    sheet, or an append of customization rows to a `Custom-<key>` sheet. -/
inductive OrdersWrite where
  | appendOrders (rows : List (List (Option String)))
  | appendCustom (key : String) (rows : List (List String))
deriving DecidableEq, Repr

/-- Number of order rows appended to the Orders sheet by a write log. -/
def countOrderRows : List OrdersWrite → Nat
  | [] => 0
  | .appendOrders rows :: ws => rows.length + countOrderRows ws
  | .appendCustom _ _ :: ws => countOrderRows ws

/-- `POST /api/saveToSheet`.  `reachable` is the outcome of the initial
    spreadsheet-access check (its failure throws, caught as a 500).  The
    handler then appends `productRows` (one per product, none when `products`
    is absent or empty), and only afterwards evaluates
    `Object.keys(customizationDetails)` — which throws on an absent field,
    so the catch block answers 500 even though the append already happened. -/
def saveToSheet (reachable : Bool) (b : SaveBody) : Resp Unit × List OrdersWrite :=
  if !reachable then (.serverError, [])
  else
    let productRows : List (List (Option String)) :=
      match b.products with
      | some l => if 0 < l.length then l.map (mkOrderRow b) else []
      | none => []
    let w1 : List OrdersWrite := [.appendOrders productRows]
    match b.customizationDetails with
    | none => (.serverError, w1)
    | some entries =>
      if 0 < entries.length then
        (.ok (), w1 ++ entries.map (fun e => .appendCustom e.1 e.2))
      else
        (.ok (), w1)

/-! ### GET /api/order/:orderId -/

/-- Nested address object of the order response. -/
structure Address where
  addressLine1 : Option String
  addressLine2 : Option String
  pincode : Option String
  city : Option String
  state : Option String
  country : Option String
deriving DecidableEq, Repr

/-- `product` sub-object: `parseFloat(..) || 0` and `parseInt(..) || 0`
    turn `NaN` (and `0` itself) into `0`. -/
structure OrderProduct where
  name : Option String
  unitPrice : ℚ
  quantity : ℤ
  SKU : Option String
deriving DecidableEq, Repr

/-- `payment` sub-object. -/
structure OrderPayment where
  method : Option String
  COD : Option String
  totalAmount : ℚ
  paymentId : Option String
deriving DecidableEq, Repr

/-- `shipping.dimensions` sub-object. -/
structure Dimensions where
  length : ℚ
  breadth : ℚ
  height : ℚ
deriving DecidableEq, Repr

/-- `shipping` sub-object. -/
structure OrderShipping where
  weight : ℚ
  dimensions : Dimensions
  courierId : Option String
deriving DecidableEq, Repr

/-- Payload of a successful `GET /api/order/:orderId` response. -/
structure OrderData where
  orderId : Option String
  pickUpCode : Option String
  phoneNumber : Option String
  firstName : Option String
  lastName : Option String
  email : Option String
  shippingAddress : Address
  billingAddress : Address
  product : OrderProduct
  payment : OrderPayment
  shipping : OrderShipping
  isMultipleProductOrder : Option String
  timestamp : Option String
deriving DecidableEq, Repr

/-- The fixed positional decoding of one Orders row. -/
def orderDataOfRow (row : List String) : OrderData :=
  { orderId := getCell row 0
    pickUpCode := getCell row 1
    phoneNumber := getCell row 2
    firstName := getCell row 3
    lastName := getCell row 4
    email := getCell row 5
    shippingAddress :=
      { addressLine1 := getCell row 6, addressLine2 := getCell row 7
        pincode := getCell row 8, city := getCell row 9
        state := getCell row 10, country := getCell row 11 }
    billingAddress :=
      { addressLine1 := getCell row 12, addressLine2 := getCell row 13
        pincode := getCell row 14, city := getCell row 15
        state := getCell row 16, country := getCell row 17 }
    product :=
      { name := getCell row 18
        unitPrice := (jsParseFloat (getCell row 19)).getD 0
        quantity := (jsParseInt (getCell row 20)).getD 0
        SKU := getCell row 21 }
    payment :=
      { method := getCell row 22, COD := getCell row 23
        totalAmount := (jsParseFloat (getCell row 24)).getD 0
        paymentId := getCell row 30 }
    shipping :=
      { weight := (jsParseFloat (getCell row 25)).getD 0
        dimensions :=
          { length := (jsParseFloat (getCell row 26)).getD 0
            breadth := (jsParseFloat (getCell row 27)).getD 0
            height := (jsParseFloat (getCell row 28)).getD 0 }
        courierId := getCell row 29 }
    isMultipleProductOrder := getCell row 31
    timestamp := getCell row 32 }

/-- `GET /api/order/:orderId`: `rows.find(row => row[0] === orderId)`,
    404 when absent, otherwise decode the first matching row. -/
def getOrder (rows : List (List String)) (orderId : String) : Resp OrderData :=
  match rows.find? (fun row => getCell row 0 == some orderId) with
  | none => .notFound
  | some row => .ok (orderDataOfRow row)

/-! ### POST /api/admin/login and the authenticateAdmin gate

Credentials, headers and tokens are byte strings (`List Nat`, each < 256),
since `Buffer.from(token, "base64")` works on bytes.  `b64Encode` is Node's
`Buffer.toString("base64")`; `b64Decode` is Node's forgiving
`Buffer.from(_, "base64")`, which silently skips every character outside the
base64 alphabet (including padding) and drops a dangling trailing sextet. -/

/-- Byte string of an ASCII string literal. -/
def asciiBytes (s : String) : List Nat :=
  s.data.map Char.toNat

/-- ASCII code of the base64 alphabet character of a sextet. -/
def b64CharCode (n : Nat) : Nat :=
  if n < 26 then 65 + n
  else if n < 52 then 97 + (n - 26)
  else if n < 62 then 48 + (n - 52)
  else if n = 62 then 43
  else 47

/-- Standard base64 encoding of a byte string, with `=` padding (61). -/
def b64Encode : List Nat → List Nat
  | [] => []
  | [a] =>
    let a := a % 256
    [b64CharCode (a / 4), b64CharCode (a % 4 * 16), 61, 61]
  | [a, b] =>
    let a := a % 256
    let b := b % 256
    [b64CharCode (a / 4), b64CharCode (a % 4 * 16 + b / 16),
     b64CharCode (b % 16 * 4), 61]
  | a :: b :: c :: rest =>
    let a := a % 256
    let b := b % 256
    let c := c % 256
    b64CharCode (a / 4) :: b64CharCode (a % 4 * 16 + b / 16) ::
      b64CharCode (b % 16 * 4 + c / 64) :: b64CharCode (c % 64) :: b64Encode rest

/-- Sextet value of a base64 alphabet byte; `none` for every byte Node's
    decoder skips (`=`, whitespace, anything else). -/
def b64Val? (code : Nat) : Option Nat :=
  if 65 ≤ code ∧ code ≤ 90 then some (code - 65)
  else if 97 ≤ code ∧ code ≤ 122 then some (code - 97 + 26)
  else if 48 ≤ code ∧ code ≤ 57 then some (code - 48 + 52)
  else if code = 43 then some 62
  else if code = 47 then some 63
  else none

/-- Bytes of a sextet run: full groups of four, a final group of two or three
    sextets yielding one or two bytes, a dangling single sextet dropped. -/
def b64DecodeSextets : List Nat → List Nat
  | a :: b :: c :: d :: rest =>
    (a * 4 + b / 16) :: (b % 16 * 16 + c / 4) :: (c % 4 * 64 + d) ::
      b64DecodeSextets rest
  | [a, b] => [a * 4 + b / 16]
  | [a, b, c] => [a * 4 + b / 16, b % 16 * 16 + c / 4]
  | _ => []

/-- Node's `Buffer.from(token, "base64")`: skip non-alphabet bytes, decode. -/
def b64Decode (token : List Nat) : List Nat :=
  b64DecodeSextets (token.filterMap b64Val?)

/-- JavaScript `String.prototype.split(sep)` for a one-byte separator:
    `"".split(s) = [""]`, separators at the ends produce empty parts. -/
def splitByte (sep : Nat) : List Nat → List (List Nat)
  | [] => [[]]
  | b :: bs =>
    let r := splitByte sep bs
    if b = sep then [] :: r
    else
      match r with
      | [] => [[b]]
      | h :: t => (b :: h) :: t

/-- The configured `ADMIN_USERNAME` / `ADMIN_PASSWORD` pair. -/
structure AdminEnv where
  username : List Nat
  password : List Nat
deriving DecidableEq, Repr

/-- Result of `POST /api/admin/login`: the token on success, 401 otherwise. -/
inductive LoginResult where
  | ok (token : List Nat)
  | unauthorized
deriving DecidableEq, Repr

/-- `POST /api/admin/login`: exact equality against the configured pair;
    on match the token is base64 of `username:password` (58 is `:`). -/
def adminLogin (username password : Option (List Nat)) (env : AdminEnv) :
    LoginResult :=
  match username, password with
  | some u, some p =>
    if u = env.username ∧ p = env.password then
      .ok (b64Encode (u ++ [58] ++ p))
    else .unauthorized
  | _, _ => .unauthorized

/-- Outcome of the authenticateAdmin middleware. -/
inductive AuthResult where
  | authorized
  | unauthorized
deriving DecidableEq, Repr

/-- The bytes of `"Bearer "`. -/
def bearerBytes : List Nat :=
  asciiBytes "Bearer "

/-- The authenticateAdmin middleware: requires the header to start with
    `"Bearer "`, takes `header.split(" ")[1]` (32 is the space byte) as the
    token, base64-decodes it, splits the decoded bytes on `":"` (58), and
    compares part 0 with the username and part 1 with the password
    (a missing part 1 is `undefined` and never equals the configured string). -/
def authenticateAdmin (authHeader : Option (List Nat)) (env : AdminEnv) :
    AuthResult :=
  match authHeader with
  | none => .unauthorized
  | some h =>
    if bearerBytes.isPrefixOf h then
      match (splitByte 32 h).get? 1 with
      | none => .unauthorized
      | some token =>
        let parts := splitByte 58 (b64Decode token)
        if parts.get? 0 = some env.username ∧ parts.get? 1 = some env.password then
          .authorized
        else .unauthorized
    else .unauthorized

/-! ### Specification-side reformulations used by the theorems -/

/-- A matched link row resolves cleanly: its product is in the map with a
    parseable price, and its quantity parses as an integer. -/
def lineResolvedB (productRows : List (List String)) (row : List String) : Bool :=
  ((mapLookup productRows (getCell row 1)).bind ProductDetail.price).isSome &&
  (jsParseInt (getCell row 2)).isSome

/-- price × quantity of one matched link row (0 defaults never used under
    `lineResolvedB`). -/
def lineAmount (productRows : List (List String)) (row : List String) : ℚ :=
  ((mapLookup productRows (getCell row 1)).bind ProductDetail.price).getD 0 *
    (((jsParseInt (getCell row 2)).getD 0 : ℤ) : ℚ)

/-- The spec's total: sum of price × quantity over the matched rows. -/
def lineSum (productRows : List (List String)) (M : List (List String)) : ℚ :=
  (M.map (lineAmount productRows)).sum

/-! ### Helper lemmas -/

theorem get?_setIdx (l : List String) (i : Nat) (v : String) :
    (setIdx l i v).get? i = some v := by
  induction i generalizing l with
  | zero => cases l <;> rfl
  | succ n ih =>
    cases l with
    | nil => simpa [setIdx] using ih []
    | cons x xs => simpa [setIdx] using ih xs

theorem totalOf_joinLines (P : List (List String)) :
    ∀ M : List (List String), (∀ row ∈ M, lineResolvedB P row = true) →
    ∃ items, joinLines P M = some items ∧
      ∀ s : ℚ,
        items.foldl
          (fun sum it => jnumAdd sum (jnumMul it.detail.price (jnumOfInt it.quantity)))
          (some s) = some (s + lineSum P M) := by
  intro M
  induction M with
  | nil =>
    intro _
    exact ⟨[], rfl, fun s => by simp [lineSum, lineAmount]⟩
  | cons row M ih =>
    intro h
    have hrow := h row (by simp)
    have htail : ∀ r ∈ M, lineResolvedB P r = true := fun r hr => h r (by simp [hr])
    obtain ⟨items, hjoin, hfold⟩ := ih htail
    simp only [lineResolvedB, Bool.and_eq_true, Option.isSome_iff_exists] at hrow
    obtain ⟨⟨q, hq⟩, z, hz⟩ := hrow
    have hlook : ∃ d, mapLookup P (getCell row 1) = some d ∧ d.price = some q := by
      cases hd : mapLookup P (getCell row 1) with
      | none => rw [hd] at hq; exact absurd hq (by simp [Option.bind])
      | some d => rw [hd] at hq; exact ⟨d, rfl, hq⟩
    obtain ⟨d, hd, hdq⟩ := hlook
    refine ⟨{ detail := d, quantity := jsParseInt (getCell row 2) } :: items, ?_, ?_⟩
    · simp [joinLines, hd, hjoin]
    · intro s
      have hamount : lineAmount P row = q * (z : ℚ) := by
        simp [lineAmount, hd, hdq, hz]
      calc
        (({ detail := d, quantity := jsParseInt (getCell row 2) } :: items).foldl
            (fun sum it => jnumAdd sum (jnumMul it.detail.price (jnumOfInt it.quantity)))
            (some s))
            = items.foldl
                (fun sum it => jnumAdd sum (jnumMul it.detail.price (jnumOfInt it.quantity)))
                (some (s + q * (z : ℚ))) := by
              simp [List.foldl, hdq, hz, jnumAdd, jnumMul, jnumOfInt]
        _ = some (s + q * (z : ℚ) + lineSum P M) := hfold _
        _ = some (s + lineSum P (row :: M)) := by
              rw [show lineSum P (row :: M) = lineAmount P row + lineSum P M by
                    simp [lineSum], hamount, add_assoc]

theorem countOrderRows_customs (es : List (String × List (List String))) :
    countOrderRows (es.map (fun e => OrdersWrite.appendCustom e.1 e.2)) = 0 := by
  induction es with
  | nil => rfl
  | cons e t ih => simpa [countOrderRows] using ih

/-! ### Claim theorems -/

/-- C10: every record of the `GET /api/products` list carries exactly the four
fields id, name, description and price (price parsed as a float from column
12), each equal to the corresponding field of the detail record that
`GET /api/product/:productId` would decode from the same row; the SKU, weight,
length, breadth, height and colors fields of the detail record are never part
of a list entry. -/
theorem products_list_is_detail_projection (rows : List (List String)) :
    getProducts rows = .ok (rows.map (fun row =>
      { id := (productDetailOfRow row).id
        name := (productDetailOfRow row).name
        description := (productDetailOfRow row).description
        price := (productDetailOfRow row).price })) :=
  rfl

/-- C7: `GET /api/order/:orderId` answers 404 when no Orders row has
column 0 equal to the orderId, and otherwise builds its response exclusively
from the first matching row in sheet order — even when several rows share the
orderId — decoded by the fixed positional mapping `orderDataOfRow`. -/
theorem getOrder_first_match_only (rows : List (List String)) (oid : String) :
    ((∀ row ∈ rows, getCell row 0 ≠ some oid) → getOrder rows oid = .notFound) ∧
    (∀ l₁ r l₂, rows = l₁ ++ r :: l₂ → getCell r 0 = some oid →
      (∀ r' ∈ l₁, getCell r' 0 ≠ some oid) →
      getOrder rows oid = .ok (orderDataOfRow r)) := by
  constructor
  · intro h
    unfold getOrder
    rw [List.find?_eq_none.mpr (fun x hx => by simp [h x hx])]
  · intro l₁ r l₂ hrows hr hl₁
    subst hrows
    unfold getOrder
    have hfind : (l₁ ++ r :: l₂).find? (fun row => getCell row 0 == some oid) = some r := by
      induction l₁ with
      | nil => simp [List.find?_cons, hr]
      | cons a t ih =>
        have ha : (getCell a 0 == some oid) = false := by
          simp [hl₁ a (by simp)]
        rw [List.cons_append, List.find?_cons, ha]
        exact ih (fun r' h' => hl₁ r' (by simp [h']))
    rw [hfind]

/-- C6: `POST /api/generate-link` with a products field that is absent, not an
array, or an empty array answers 400 and issues no sheet write at all, so the
OrderLinks state is unchanged. -/
theorem generateLink_invalid_no_writes (body : BodyProducts) (linkId ts : String)
    (sheetExists : Bool)
    (h : body = .absent ∨ body = .notAnArray ∨ body = .arr []) :
    generateLink body linkId ts sheetExists = (.badRequest, []) ∧
    ∀ table, applyWrites table (generateLink body linkId ts sheetExists).2 = table := by
  rcases h with h | h | h <;> subst h <;> exact ⟨rfl, fun _ => rfl⟩

theorem generateLink_invalid_no_writes_witness :
    (BodyProducts.arr [] = .absent ∨ BodyProducts.arr [] = .notAnArray ∨
      BodyProducts.arr [] = .arr []) ∧
    (generateLink (.arr []) "deadbeef01234567" "2024-01-01T00:00:00.000Z" true =
      (.badRequest, []) ∧
    ∀ table,
      applyWrites table
        (generateLink (.arr []) "deadbeef01234567" "2024-01-01T00:00:00.000Z" true).2 =
        table) :=
  ⟨by simp,
   generateLink_invalid_no_writes (.arr []) "deadbeef01234567"
     "2024-01-01T00:00:00.000Z" true (by simp)⟩

/-- C1: `PUT /api/update-payment-status` with both fields present writes back
the table obtained by setting column 4 to the given paymentStatus on every row
whose column 0 equals the given linkId, leaving every other row unchanged cell
for cell, and preserving the number of rows. -/
theorem updatePaymentStatus_frame (rows : List (List String)) (l p : String)
    (hl : l ≠ "") (hp : p ≠ "") :
    updatePaymentStatus (some l) (some p) rows =
      (.ok (), [.clear "OrderLinks", .update "OrderLinks" (rows.map (updateRow l p))]) ∧
    (rows.map (updateRow l p)).length = rows.length ∧
    ∀ i row, rows.get? i = some row →
      ∃ row', (rows.map (updateRow l p)).get? i = some row' ∧
        (getCell row 0 = some l → getCell row' 4 = some p) ∧
        (getCell row 0 ≠ some l → row' = row) := by
  refine ⟨?_, by simp, ?_⟩
  · unfold updatePaymentStatus
    simp [hl, hp]
  · intro i row hrow
    refine ⟨updateRow l p row, ?_, ?_, ?_⟩
    · rw [List.get?_map, hrow]
      rfl
    · intro h0
      unfold updateRow
      rw [if_pos (by simp [h0])]
      exact get?_setIdx row 4 p
    · intro h0
      unfold updateRow
      rw [if_neg (by simp [h0])]

theorem updatePaymentStatus_frame_witness :
    ("abcdef0123456789" ≠ "" ∧ "paid" ≠ "") ∧
    (updatePaymentStatus (some "abcdef0123456789") (some "paid")
        [["Link ID", "Product ID", "Quantity", "Timestamp"],
         ["abcdef0123456789", "p1", "2", "t"],
         ["ffff000011112222", "p2", "1", "t", "done"]] =
      (.ok (), [.clear "OrderLinks", .update "OrderLinks"
        ([["Link ID", "Product ID", "Quantity", "Timestamp"],
          ["abcdef0123456789", "p1", "2", "t"],
          ["ffff000011112222", "p2", "1", "t", "done"]].map
            (updateRow "abcdef0123456789" "paid"))]) ∧
    ([["Link ID", "Product ID", "Quantity", "Timestamp"],
      ["abcdef0123456789", "p1", "2", "t"],
      ["ffff000011112222", "p2", "1", "t", "done"]].map
        (updateRow "abcdef0123456789" "paid")).length = 3 ∧
    ∀ i row,
      [["Link ID", "Product ID", "Quantity", "Timestamp"],
       ["abcdef0123456789", "p1", "2", "t"],
       ["ffff000011112222", "p2", "1", "t", "done"]].get? i = some row →
      ∃ row',
        ([["Link ID", "Product ID", "Quantity", "Timestamp"],
          ["abcdef0123456789", "p1", "2", "t"],
          ["ffff000011112222", "p2", "1", "t", "done"]].map
            (updateRow "abcdef0123456789" "paid")).get? i = some row' ∧
        (getCell row 0 = some "abcdef0123456789" → getCell row' 4 = some "paid") ∧
        (getCell row 0 ≠ some "abcdef0123456789" → row' = row)) :=
  ⟨⟨by decide, by decide⟩,
   updatePaymentStatus_frame _ "abcdef0123456789" "paid" (by decide) (by decide)⟩

theorem getOrder_first_match_only_witness :
    (getCell ["ord1", "pc", "ph", "f", "l"] 0 = some "ord1" ∧
      (∀ r' ∈ ([] : List (List String)), getCell r' 0 ≠ some "ord1")) ∧
    getOrder [["ord1", "pc", "ph", "f", "l"], ["ord1", "pc2", "ph2", "f2", "l2"]] "ord1" =
      .ok (orderDataOfRow ["ord1", "pc", "ph", "f", "l"]) :=
  ⟨⟨by decide, by simp⟩,
   (getOrder_first_match_only
       [["ord1", "pc", "ph", "f", "l"], ["ord1", "pc2", "ph2", "f2", "l2"]] "ord1").2
     [] ["ord1", "pc", "ph", "f", "l"] [["ord1", "pc2", "ph2", "f2", "l2"]]
     rfl (by decide) (by simp)⟩

/-- C5: `GET /api/order-link/:linkId` for a linkId matching no OrderLinks row
answers 404 with no dependence whatsoever on the Products table (the response
is the same for every Products state), and the `orderLinks[4] | "pending"`
bitwise-OR fallback of the paymentStatus ternary never reaches a client:
every successful response carries the string branch, computed from the first
matched row. -/
theorem orderLink_unknown_404_no_join (linkRows : List (List String)) (l : String)
    (h : ∀ row ∈ linkRows, getCell row 0 ≠ some l) :
    (∀ productRows, getOrderLink linkRows productRows l = .notFound) ∧
    (∀ linkRows' productRows' l' d,
      getOrderLink linkRows' productRows' l' = .ok d →
      d.paymentStatus = .str (jsOrDefault
        (getCell ((linkRows'.filter (fun row => getCell row 0 == some l')).headD []) 4)
        "pending")) := by
  constructor
  · intro productRows
    unfold getOrderLink
    have hfil : linkRows.filter (fun row => getCell row 0 == some l) = [] :=
      List.filter_eq_nil.mpr (fun row hrow => by simp [h row hrow])
    simp [hfil]
  · intro L P l' d hok
    unfold getOrderLink at hok
    by_cases hlen : (L.filter (fun row => getCell row 0 == some l')).length = 0
    · simp [hlen] at hok
    · rw [if_neg hlen] at hok
      cases hj : joinLines P (L.filter (fun row => getCell row 0 == some l')) with
      | none => rw [hj] at hok; cases hok
      | some items =>
        rw [hj] at hok
        cases hok
        simp [paymentStatusOf, Nat.pos_of_ne_zero hlen]

theorem orderLink_unknown_404_no_join_witness :
    (∀ row ∈ [["aaaabbbbccccdddd", "p1", "1", "t"]],
      getCell row 0 ≠ some "0000000000000000") ∧
    getOrderLink [["aaaabbbbccccdddd", "p1", "1", "t"]] [] "0000000000000000" =
      .notFound :=
  ⟨by decide,
   (orderLink_unknown_404_no_join [["aaaabbbbccccdddd", "p1", "1", "t"]]
       "0000000000000000" (by decide)).1 []⟩

/-- C9: every row that `POST /api/generate-link` appends to OrderLinks has
exactly the 4 cells `[linkId, productId, quantity, timestamp]` and no cell at
index 4; consequently, as long as no other row carries that linkId, any
successful `GET /api/order-link/:linkId` on the resulting table reports
paymentStatus `"pending"`. -/
theorem generateLink_rows_pending (items : List LinkItem) (linkId ts : String)
    (old productRows : List (List String))
    (hold : ∀ row ∈ old, getCell row 0 ≠ some linkId) :
    (∀ row ∈ linkRowsOf items linkId ts, row.length = 4 ∧ getCell row 4 = none) ∧
    (∀ d, getOrderLink (old ++ linkRowsOf items linkId ts) productRows linkId = .ok d →
      d.paymentStatus = .str "pending") := by
  constructor
  · intro row hrow
    obtain ⟨it, _, rfl⟩ := List.mem_map.mp hrow
    exact ⟨rfl, rfl⟩
  · intro d hok
    have hfil : (old ++ linkRowsOf items linkId ts).filter
        (fun row => getCell row 0 == some linkId) = linkRowsOf items linkId ts := by
      rw [List.filter_append,
        List.filter_eq_nil.mpr (fun row hrow => by simp [hold row hrow]),
        List.filter_eq_self.mpr (fun row hrow => by
          obtain ⟨it, _, rfl⟩ := List.mem_map.mp hrow
          simp [linkRowsOf, getCell]),
        List.nil_append]
    unfold getOrderLink at hok
    rw [hfil] at hok
    by_cases hlen : (linkRowsOf items linkId ts).length = 0
    · simp [hlen] at hok
    · rw [if_neg hlen] at hok
      cases hj : joinLines productRows (linkRowsOf items linkId ts) with
      | none => rw [hj] at hok; cases hok
      | some js =>
        rw [hj] at hok
        cases hok
        cases items with
        | nil => exact absurd rfl hlen
        | cons it rest =>
          simp [paymentStatusOf, linkRowsOf, jsOrDefault, getCell]

theorem generateLink_rows_pending_witness :
    (∀ row ∈ [["zzzz", "p9", "3", "t0"]], getCell row 0 ≠ some "1234123412341234") ∧
    (∀ row ∈ linkRowsOf [⟨"p1", "2"⟩] "1234123412341234" "2024-01-01T00:00:00.000Z",
      row.length = 4 ∧ getCell row 4 = none) ∧
    (∀ d,
      getOrderLink
        ([["zzzz", "p9", "3", "t0"]] ++
          linkRowsOf [⟨"p1", "2"⟩] "1234123412341234" "2024-01-01T00:00:00.000Z")
        [["p1", "P", "d", "", "", "", "", "", "", "", "", "", "10"]]
        "1234123412341234" = .ok d →
      d.paymentStatus = .str "pending") :=
  ⟨by decide,
   generateLink_rows_pending [⟨"p1", "2"⟩] "1234123412341234" "2024-01-01T00:00:00.000Z"
     [["zzzz", "p9", "3", "t0"]]
     [["p1", "P", "d", "", "", "", "", "", "", "", "", "", "10"]] (by decide)⟩

/-- C2: when at least one OrderLinks row matches the linkId and every matched
row resolves (its product is in the Products map with a parseable price and
its quantity parses), `GET /api/order-link/:linkId` succeeds and its
totalAmount is exactly the sum over the matched rows of price × quantity. -/
theorem orderLink_totalAmount (linkRows productRows : List (List String)) (l : String)
    (hne : linkRows.filter (fun row => getCell row 0 == some l) ≠ [])
    (hres : ∀ row ∈ linkRows.filter (fun row => getCell row 0 == some l),
      lineResolvedB productRows row = true) :
    ∃ d, getOrderLink linkRows productRows l = .ok d ∧
      d.totalAmount =
        some (lineSum productRows (linkRows.filter (fun row => getCell row 0 == some l))) := by
  obtain ⟨items, hjoin, hfold⟩ :=
    totalOf_joinLines productRows (linkRows.filter (fun row => getCell row 0 == some l)) hres
  have hlen : (linkRows.filter (fun row => getCell row 0 == some l)).length ≠ 0 :=
    fun h0 => hne (List.length_eq_zero.mp h0)
  refine ⟨{ linkId := l
            paymentStatus :=
              paymentStatusOf (linkRows.filter (fun row => getCell row 0 == some l))
            products := items
            totalAmount := totalOf items }, ?_, ?_⟩
  · simp only [getOrderLink]
    rw [if_neg hlen, hjoin]
  · have h0 := hfold 0
    rw [zero_add] at h0
    simpa [totalOf] using h0

theorem orderLink_totalAmount_witness :
    ([["Link ID", "Product ID", "Quantity", "Timestamp"],
      ["1111222233334444", "p1", "2", "t"],
      ["1111222233334444", "p2", "1", "t"]].filter
        (fun row => getCell row 0 == some "1111222233334444") ≠ [] ∧
     ∀ row ∈ [["Link ID", "Product ID", "Quantity", "Timestamp"],
        ["1111222233334444", "p1", "2", "t"],
        ["1111222233334444", "p2", "1", "t"]].filter
          (fun row => getCell row 0 == some "1111222233334444"),
       lineResolvedB
         [["p1", "A", "d", "", "", "", "", "", "", "", "", "", "100"],
          ["p2", "B", "d", "", "", "", "", "", "", "", "", "", "50"]] row = true) ∧
    ∃ d,
      getOrderLink
        [["Link ID", "Product ID", "Quantity", "Timestamp"],
         ["1111222233334444", "p1", "2", "t"],
         ["1111222233334444", "p2", "1", "t"]]
        [["p1", "A", "d", "", "", "", "", "", "", "", "", "", "100"],
         ["p2", "B", "d", "", "", "", "", "", "", "", "", "", "50"]]
        "1111222233334444" = .ok d ∧
      d.totalAmount = some 250 := by
  refine ⟨⟨by decide, by decide⟩, ?_⟩
  obtain ⟨d, hd, ht⟩ :=
    orderLink_totalAmount
      [["Link ID", "Product ID", "Quantity", "Timestamp"],
       ["1111222233334444", "p1", "2", "t"],
       ["1111222233334444", "p2", "1", "t"]]
      [["p1", "A", "d", "", "", "", "", "", "", "", "", "", "100"],
       ["p2", "B", "d", "", "", "", "", "", "", "", "", "", "50"]]
      "1111222233334444" (by decide) (by decide)
  refine ⟨d, hd, ht.trans (congrArg some ?_)⟩
  simp [lineSum, lineAmount, mapLookup, productDetailOfRow, getCell,
    jsParseFloat, jsParseInt, takeDigits, digitVal?, natOfDigits, fracOfDigits,
    List.find?, List.filter]
  norm_num

/-- C3 (amended): `POST /api/saveToSheet` with an empty or absent `products`
array, a passing spreadsheet reachability check, and a present (possibly
empty) `customizationDetails` object appends zero order rows to the Orders
sheet and answers `{success: true}`.  (Presence of `customizationDetails` is
required: see the counterexample and C8.) -/
theorem saveToSheet_empty_products (b : SaveBody)
    (entries : List (String × List (List String)))
    (hp : b.products = some [] ∨ b.products = none)
    (hc : b.customizationDetails = some entries) :
    (saveToSheet true b).1 = .ok () ∧ countOrderRows (saveToSheet true b).2 = 0 := by
  rcases hp with hp | hp <;> by_cases he : 0 < entries.length <;>
    simp [saveToSheet, hp, hc, he, countOrderRows, countOrderRows_customs]

theorem saveToSheet_empty_products_witness :
    ((({ products := some [], customizationDetails := some [] } : SaveBody).products =
        some [] ∨
      ({ products := some [], customizationDetails := some [] } : SaveBody).products =
        none) ∧
     ({ products := some [], customizationDetails := some [] } : SaveBody
       ).customizationDetails = some []) ∧
    ((saveToSheet true { products := some [], customizationDetails := some [] }).1 =
      .ok () ∧
     countOrderRows
       (saveToSheet true { products := some [], customizationDetails := some [] }).2 = 0) :=
  ⟨⟨Or.inl rfl, rfl⟩,
   saveToSheet_empty_products { products := some [], customizationDetails := some [] }
     [] (Or.inl rfl) rfl⟩

/-- C3 (counterexample to the claim as stated): a body whose `products` array
is empty but whose `customizationDetails` field is absent passes the
reachability check yet is answered with the 500 envelope, not with
`{success: true}`. -/
theorem saveToSheet_empty_products_counterexample :
    saveToSheet true { products := some [], customizationDetails := none } =
      (.serverError, [.appendOrders []]) ∧
    (Resp.serverError : Resp Unit) ≠ .ok () :=
  ⟨rfl, by decide⟩

/-- C8: `POST /api/saveToSheet` without a `customizationDetails` field answers
500 even when `products` is a valid non-empty array and every sheet operation
succeeds, because `Object.keys(customizationDetails)` is evaluated
unconditionally — and the order-row append has already been issued when it
throws. -/
theorem saveToSheet_missing_customization (b : SaveBody) (ps : List SaveProduct)
    (hp : b.products = some ps) (hps : ps ≠ [])
    (hc : b.customizationDetails = none) :
    saveToSheet true b = (.serverError, [.appendOrders (ps.map (mkOrderRow b))]) := by
  have hlen := List.length_pos.mpr hps
  simp [saveToSheet, hp, hc, hlen]

theorem saveToSheet_missing_customization_witness :
    (({ products := some [{ name := some "P" }] } : SaveBody).products =
        some [{ name := some "P" }] ∧
     ([{ name := some "P" }] : List SaveProduct) ≠ [] ∧
     ({ products := some [{ name := some "P" }] } : SaveBody).customizationDetails =
        none) ∧
    saveToSheet true { products := some [{ name := some "P" }] } =
      (.serverError,
       [.appendOrders
          ([{ name := some "P" }].map
            (mkOrderRow { products := some [{ name := some "P" }] }))]) :=
  ⟨⟨rfl, by decide, rfl⟩,
   saveToSheet_missing_customization { products := some [{ name := some "P" }] }
     [{ name := some "P" }] rfl (by decide) rfl⟩

/-- C4 (counterexample to the claim as stated): for the configured pair
`admin` / `secret`, login returns the canonical token base64("admin:secret"),
yet appending a padding byte `=` (61) yields a *different* token string that
the gate still accepts, because `Buffer.from(token, "base64")` skips
non-alphabet bytes — so it is not true that every token other than
base64("username:password") is rejected. -/
theorem authenticateAdmin_nonCanonical_token_accepted :
    b64Encode (asciiBytes "admin" ++ [58] ++ asciiBytes "secret") ++ [61] ≠
      b64Encode (asciiBytes "admin" ++ [58] ++ asciiBytes "secret") ∧
    adminLogin (some (asciiBytes "admin")) (some (asciiBytes "secret"))
        ⟨asciiBytes "admin", asciiBytes "secret"⟩ =
      .ok (b64Encode (asciiBytes "admin" ++ [58] ++ asciiBytes "secret")) ∧
    authenticateAdmin
        (some (bearerBytes ++
          (b64Encode (asciiBytes "admin" ++ [58] ++ asciiBytes "secret") ++ [61])))
        ⟨asciiBytes "admin", asciiBytes "secret"⟩ = .authorized := by
  decide

/-- C4 (amended): `POST /api/admin/login` with exactly the configured
username and password returns the token base64("username:password"); a request
passes the authenticateAdmin gate iff its Authorization header is present,
starts with `"Bearer "`, and its second space-separated word is a token whose
(forgiving, padding-insensitive) base64 decoding splits on `":"` into the
configured username and password — so the gate rejects exactly the requests
whose token does not *decode* to the credentials, not every token textually
different from base64("username:password"). -/
theorem adminAuth_token_spec (env : AdminEnv) :
    adminLogin (some env.username) (some env.password) env =
      .ok (b64Encode (env.username ++ [58] ++ env.password)) ∧
    authenticateAdmin none env = .unauthorized ∧
    ∀ h, authenticateAdmin (some h) env = .authorized ↔
      (bearerBytes.isPrefixOf h ∧
       ∃ token, (splitByte 32 h).get? 1 = some token ∧
         (splitByte 58 (b64Decode token)).get? 0 = some env.username ∧
         (splitByte 58 (b64Decode token)).get? 1 = some env.password) := by
  refine ⟨?_, rfl, ?_⟩
  · simp [adminLogin]
  · intro h
    simp only [authenticateAdmin]
    by_cases hb : bearerBytes.isPrefixOf h
    · rw [if_pos hb]
      cases ht : (splitByte 32 h).get? 1 with
      | none =>
        simp only [ht]
        constructor
        · intro hcontra; cases hcontra
        · rintro ⟨-, token, htok, -⟩
          cases htok
      | some token =>
        simp only [ht]
        by_cases hcred : (splitByte 58 (b64Decode token)).get? 0 = some env.username ∧
            (splitByte 58 (b64Decode token)).get? 1 = some env.password
        · rw [if_pos hcred]
          exact ⟨fun _ => ⟨hb, token, rfl, hcred.1, hcred.2⟩, fun _ => rfl⟩
        · rw [if_neg hcred]
          constructor
          · intro hcontra; cases hcontra
          · rintro ⟨-, token', htok', hc0, hc1⟩
            cases htok'
            exact absurd ⟨hc0, hc1⟩ hcred
    · rw [if_neg hb]
      constructor
      · intro hcontra; cases hcontra
      · rintro ⟨hb', -⟩
        exact absurd hb' hb

theorem adminAuth_token_spec_witness :
    adminLogin (some (asciiBytes "admin")) (some (asciiBytes "secret"))
        ⟨asciiBytes "admin", asciiBytes "secret"⟩ =
      .ok (b64Encode (asciiBytes "admin" ++ [58] ++ asciiBytes "secret")) ∧
    authenticateAdmin
        (some (bearerBytes ++ b64Encode (asciiBytes "admin" ++ [58] ++ asciiBytes "secret")))
        ⟨asciiBytes "admin", asciiBytes "secret"⟩ = .authorized ∧
    authenticateAdmin (some (asciiBytes "Bearer AAAA"))
        ⟨asciiBytes "admin", asciiBytes "secret"⟩ = .unauthorized := by
  have h := adminAuth_token_spec ⟨asciiBytes "admin", asciiBytes "secret"⟩
  refine ⟨h.1,
    (h.2.2 _).mpr ⟨by decide,
      b64Encode (asciiBytes "admin" ++ [58] ++ asciiBytes "secret"),
      by decide, by decide, by decide⟩, ?_⟩
  cases he : authenticateAdmin (some (asciiBytes "Bearer AAAA"))
      ⟨asciiBytes "admin", asciiBytes "secret"⟩ with
  | unauthorized => rfl
  | authorized =>
    obtain ⟨-, token, htok, hcred, -⟩ := (h.2.2 _).mp he
    rw [show (splitByte 32 (asciiBytes "Bearer AAAA")).get? 1 =
        some (asciiBytes "AAAA") by decide] at htok
    cases htok
    exact absurd hcred (by decide)

end WhatsForm
